import Mathlib

/-!
Shallow embedding of the quiz session engine of the Dictovo client
(the `Quiz` React component, `src/pages/AddWord.tsx` bundle).

The component state is the tuple of `useState` hooks; every event handler
is translated as a pure function `QuizState → QuizState × List Effect`,
where `Effect` records the externally visible actions the handler performs
(HTTP submissions, toasts, query invalidations).  Asynchronous completions
(`await refetch()`) are modelled by passing the fetch outcome as an explicit
argument to the continuation that the source runs after the `await`.
-/

namespace Dictovo

/-- Question type, field `type` of a quiz question
(`'meaning' | 'synonyms' | 'antonyms' | 'fill-blank'`). -/
inductive QType where
  | meaning
  | synonyms
  | antonyms
  | fillBlank
deriving DecidableEq, Repr

/-- Configured quiz type (`useState` hook `quizType`); adds `'mixed'`. -/
inductive QuizTypeCfg where
  | meaning
  | synonyms
  | antonyms
  | fillBlank
  | mixed
deriving DecidableEq, Repr

/-- Status filter (`useState` hook `status`). -/
inductive StatusFilter where
  | all
  | learning
  | reviewing
  | mastered
deriving DecidableEq, Repr

/-- `interface QuizQuestion` from the source. -/
structure QuizQuestion where
  wordId : String
  word : String
  question : String
  options : List String
  correctAnswer : String
  type : QType
deriving DecidableEq, Repr

/-- `interface QuizResponse` from the source. -/
structure QuizResponse where
  questions : List QuizQuestion
  totalQuestions : Nat
  quizType : String
deriving DecidableEq, Repr

/-- `interface QuizResult` from the source. -/
structure QuizResult where
  wordId : String
  selectedAnswer : String
  correct : Bool
  correctAnswer : String
  word : String
  question : String
deriving DecidableEq, Repr

/-- Externally visible actions a handler performs: the POST of quiz
results, `toast.success`/`toast.error`, the PUT of a word status
(`axios.put` to `/vocabulary/:id`), and react-query cache
invalidations. -/
inductive Effect where
  | submit (results : List QuizResult)
  | toastSuccess (msg : String)
  | toastError (msg : String)
  | putStatus (wordId : String) (status : String)
  | invalidate (key : String)
deriving DecidableEq, Repr

/-- The `Quiz` component's state: one field per `useState` hook, plus
`quizData`, the react-query cache entry the `useQuery` exposes. -/
structure QuizState where
  quizType : QuizTypeCfg
  questionCount : Nat
  statusFilter : StatusFilter
  currentQuestionIndex : Nat
  selectedAnswers : List (String × String)
  showResults : Bool
  quizStarted : Bool
  timeLeft : Nat
  timerActive : Bool
  quizResults : List QuizResult
  quizData : Option QuizResponse
deriving DecidableEq, Repr

/-- JS object lookup `selectedAnswers[wordId]`: `none` when the key is
absent.  The spread `{...prev, [questionId]: answer}` is modelled by
consing, so the most recent binding shadows earlier ones. -/
def lookupAnswer (m : List (String × String)) (k : String) : Option String :=
  m.lookup k

/-- Number of questions currently fetched, `quizData?.questions.length || 0`. -/
def numQuestions (s : QuizState) : Nat :=
  (s.quizData.map (fun qd => qd.questions.length)).getD 0

/-- The arrow function inside `handleFinishQuiz`'s
`quizData.questions.map(question => ...)`:
`selectedAnswer: selectedAnswers[wordId] || ''` (the empty string is the
"no answer" marker, and a stored empty string is falsy in JS, so `getD`
matches), `correct: selectedAnswers[wordId] === question.correctAnswer`
(strict equality against `undefined` is `false`). -/
def resultOf (answers : List (String × String)) (q : QuizQuestion) : QuizResult :=
  { wordId := q.wordId
    selectedAnswer := (lookupAnswer answers q.wordId).getD ("")
    correct := lookupAnswer answers q.wordId == some q.correctAnswer
    correctAnswer := q.correctAnswer
    word := q.word
    question := q.question }

/-- `handleFinishQuiz`: stops the timer; if no quiz data, returns early;
otherwise maps each question to a `QuizResult` via `resultOf`, stores the
results, submits them (`submitResultsMutation.mutate`) and shows the
results modal. -/
def handleFinishQuiz (s : QuizState) : QuizState × List Effect :=
  match s.quizData with
  | none => ({ s with timerActive := false }, [])
  | some qd =>
    let results : List QuizResult := qd.questions.map (resultOf s.selectedAnswers)
    ({ s with
        timerActive := false
        quizResults := results
        showResults := true },
      [Effect.submit results])

/-- `handleAnswerSelect(questionId, answer)`:
`setSelectedAnswers(prev => ({...prev, [questionId]: answer}))`. -/
def handleAnswerSelect (s : QuizState) (questionId answer : String) :
    QuizState × List Effect :=
  ({ s with selectedAnswers := (questionId, answer) :: s.selectedAnswers }, [])

/-- `handleNextQuestion`: increments the index while strictly below
`(quizData?.questions.length || 0) - 1`, otherwise invokes
`handleFinishQuiz` (truncated `Nat` subtraction agrees with the JS
comparison `i < n - 1` here, both branches choosing finish when `n = 0`). -/
def handleNextQuestion (s : QuizState) : QuizState × List Effect :=
  if s.currentQuestionIndex < numQuestions s - 1 then
    ({ s with currentQuestionIndex := s.currentQuestionIndex + 1 }, [])
  else
    handleFinishQuiz s

/-- `handlePreviousQuestion`: decrements the index when positive. -/
def handlePreviousQuestion (s : QuizState) : QuizState × List Effect :=
  if s.currentQuestionIndex > 0 then
    ({ s with currentQuestionIndex := s.currentQuestionIndex - 1 }, [])
  else
    (s, [])

/-- Outcome of `await refetch()` inside `startQuiz`: either the provider's
response (which react-query writes into `quizData`), or a thrown error
carrying the optional server message
(`axiosError?.response?.data?.error`). -/
inductive FetchOutcome where
  | success (data : QuizResponse)
  | failure (errMsg : Option String)
deriving DecidableEq, Repr

/-- `startQuiz`, with the awaited fetch outcome as explicit argument.
On a response with a non-empty question list it starts the session
(`quizStarted = true`, index 0, empty answers, `timeLeft = n * 30`,
timer on); on an empty list it toasts
`'No questions available for the selected criteria'`; on a thrown error it
toasts the server message or `'Failed to start quiz'`.  The configuration
hooks (`quizType`, `questionCount`, `status`) are never written. -/
def startQuiz (s : QuizState) (r : FetchOutcome) : QuizState × List Effect :=
  match r with
  | FetchOutcome.success qd =>
    let s1 := { s with quizData := some qd }
    if qd.questions.length > 0 then
      ({ s1 with
          quizStarted := true
          currentQuestionIndex := 0
          selectedAnswers := []
          showResults := false
          timeLeft := qd.questions.length * 30
          timerActive := true }, [])
    else
      (s1, [Effect.toastError ("No questions available for the selected criteria")])
  | FetchOutcome.failure msg =>
    (s, [Effect.toastError (msg.getD ("Failed to start quiz"))])

/-- `resetQuiz`: clears every session hook (the react-query cache entry
`quizData` is not touched by it). -/
def resetQuiz (s : QuizState) : QuizState :=
  { s with
      quizStarted := false
      currentQuestionIndex := 0
      selectedAnswers := []
      showResults := false
      timeLeft := 0
      timerActive := false
      quizResults := [] }

/-- One firing of the timer interval.  The effect only installs an
interval while `timerActive && timeLeft > 0`; the `setTimeLeft` callback
finishes the quiz when `prev <= 1` (setting the timer inactive and the
clock to 0) and otherwise decrements. -/
def timerTick (s : QuizState) : QuizState × List Effect :=
  if s.timerActive ∧ s.timeLeft > 0 then
    if s.timeLeft ≤ 1 then
      let s1 := { s with timerActive := false }
      let (s2, effs) := handleFinishQuiz s1
      ({ s2 with timeLeft := 0 }, effs)
    else
      ({ s with timeLeft := s.timeLeft - 1 }, [])
  else
    (s, [])

/-- `markWordsForReview`, with the outcome of each PUT supplied by
`succeeds`.  Collects the `wordId`s of incorrect results; when none,
toasts success and returns without requests; otherwise issues one PUT per
word (`Promise.all` starts them all), then toasts the count on full
success (plus invalidations) or the fixed error message if any PUT
rejected. -/
def markWordsForReview (s : QuizState) (succeeds : String → Bool) :
    List Effect :=
  let incorrectWords :=
    (s.quizResults.filter (fun r => !r.correct)).map (fun r => r.wordId)
  if incorrectWords.isEmpty then
    [Effect.toastSuccess ("No words to mark for review!")]
  else
    let requests := incorrectWords.map (fun w => Effect.putStatus w ("reviewing"))
    if incorrectWords.all succeeds then
      requests ++
        [Effect.toastSuccess
            (toString incorrectWords.length ++ " words marked for review!"),
          Effect.invalidate ("vocabulary"),
          Effect.invalidate ("vocabularyStats")]
    else
      requests ++ [Effect.toastError ("Failed to mark words for review")]

/-- Number of result submissions among a list of effects. -/
def submitCount (effs : List Effect) : Nat :=
  (effs.filter (fun e =>
    match e with
    | Effect.submit _ => true
    | _ => false)).length

/-- Status-update requests among a list of effects. -/
def putRequests (effs : List Effect) : List (String × String) :=
  effs.filterMap (fun e =>
    match e with
    | Effect.putStatus w st => some (w, st)
    | _ => none)

/-! ### Concrete fixtures -/

/-- A fresh component state: the initial values of every `useState` hook
(`quizType = 'meaning'`, `questionCount = 10`, `status = 'all'`, index 0,
no answers, nothing shown, timer off, no fetched data). -/
def baseState : QuizState :=
  { quizType := QuizTypeCfg.meaning
    questionCount := 10
    statusFilter := StatusFilter.all
    currentQuestionIndex := 0
    selectedAnswers := []
    showResults := false
    quizStarted := false
    timeLeft := 0
    timerActive := false
    quizResults := []
    quizData := none }

/-- A sample question with the given id and correct answer. -/
def mkQuestion (wid ans : String) : QuizQuestion :=
  { wordId := wid
    word := wid
    question := wid
    options := [ans, "other"]
    correctAnswer := ans
    type := QType.meaning }

/-- A provider response with five questions. -/
def qd5 : QuizResponse :=
  { questions :=
      [ mkQuestion ("w1") ("a1"), mkQuestion ("w2") ("a2"),
        mkQuestion ("w3") ("a3"), mkQuestion ("w4") ("a4"),
        mkQuestion ("w5") ("a5") ]
    totalQuestions := 5
    quizType := "meaning" }

/-- An in-progress session over `qd5` with three of the five questions
answered (questions 1 and 2 correctly, question 3 incorrectly). -/
def inProgress5 : QuizState :=
  { baseState with
      quizStarted := true
      selectedAnswers := [("w1", "a1"), ("w2", "a2"), ("w3", "x")]
      timeLeft := 150
      timerActive := true
      quizData := some qd5 }

/-! ### Helper lemmas -/

/-- A tick fires only while the timer is active. -/
theorem timerTick_inactive (s : QuizState) (h : s.timerActive = false) :
    timerTick s = (s, []) := by
  simp [timerTick, h]

/-- `handleFinishQuiz` always clears the timer flag. -/
theorem handleFinishQuiz_timerActive (s : QuizState) :
    ((handleFinishQuiz s).1).timerActive = false := by
  cases h : s.quizData <;> simp [handleFinishQuiz, h]

/-- `handleFinishQuiz` submits exactly once when data is present. -/
theorem handleFinishQuiz_submitCount_some (s : QuizState) (qd : QuizResponse)
    (h : s.quizData = some qd) :
    submitCount ((handleFinishQuiz s).2) = 1 := by
  simp [handleFinishQuiz, h, submitCount]

/-! ### C1 — finish is not idempotent across explicit calls; the timer
part holds -/

/-- C1 (counterexample): calling `handleFinishQuiz` twice on an
in-progress session submits the quiz results twice — the second explicit
invocation is not a no-op and the result is not submitted at most once
per session. -/
theorem finish_twice_submits_twice :
    submitCount ((handleFinishQuiz inProgress5).2
      ++ (handleFinishQuiz ((handleFinishQuiz inProgress5).1)).2) = 2 := by
  decide

/-- C1 (amended): after any `handleFinishQuiz`, the timer flag is off and
a further timer tick is a no-op, so a timer expiry triggers finish at
most once; each explicit `handleFinishQuiz` call, however, submits once
per call whenever a question list is present (and never without one). -/
theorem handleFinishQuiz_timer_once (s : QuizState) :
    ((handleFinishQuiz s).1).timerActive = false ∧
    timerTick ((handleFinishQuiz s).1) = ((handleFinishQuiz s).1, []) ∧
    (∀ qd, s.quizData = some qd → submitCount ((handleFinishQuiz s).2) = 1) ∧
    (s.quizData = none → submitCount ((handleFinishQuiz s).2) = 0) := by
  refine ⟨handleFinishQuiz_timerActive s,
    timerTick_inactive _ (handleFinishQuiz_timerActive s), ?_, ?_⟩
  · intro qd h
    exact handleFinishQuiz_submitCount_some s qd h
  · intro h
    simp [handleFinishQuiz, h, submitCount]

/-- C1 (witness for the amended theorem). -/
theorem handleFinishQuiz_timer_once_witness :
    submitCount ((handleFinishQuiz inProgress5).2) = 1 :=
  (handleFinishQuiz_timer_once inProgress5).2.2.1 qd5 rfl

/-- On a non-empty fetched list, `startQuiz` starts the session. -/
theorem startQuiz_success_eq (s : QuizState) (qd : QuizResponse)
    (h : 0 < qd.questions.length) :
    startQuiz s (FetchOutcome.success qd) =
      ({ s with
          quizData := some qd
          quizStarted := true
          currentQuestionIndex := 0
          selectedAnswers := []
          showResults := false
          timeLeft := qd.questions.length * 30
          timerActive := true }, []) := by
  simp [startQuiz, h]

/-! ### C7 — successful start initializes the session -/

/-- C7: when the fetch succeeds with a non-empty list, the session starts
at index 0 with no answers, `timeLeft = n * 30` and the timer running. -/
theorem startQuiz_success_spec (s : QuizState) (qd : QuizResponse)
    (h : 0 < qd.questions.length) :
    startQuiz s (FetchOutcome.success qd) =
      ({ s with
          quizData := some qd
          quizStarted := true
          currentQuestionIndex := 0
          selectedAnswers := []
          showResults := false
          timeLeft := qd.questions.length * 30
          timerActive := true }, []) :=
  startQuiz_success_eq s qd h

/-- C7 (witness): five questions give 150 seconds with the timer on. -/
theorem startQuiz_success_witness :
    ((startQuiz baseState (FetchOutcome.success qd5)).1).timeLeft = 150 ∧
    ((startQuiz baseState (FetchOutcome.success qd5)).1).timerActive = true ∧
    ((startQuiz baseState (FetchOutcome.success qd5)).1).currentQuestionIndex = 0 ∧
    ((startQuiz baseState (FetchOutcome.success qd5)).1).selectedAnswers = [] := by
  rw [startQuiz_success_spec baseState qd5 (by decide)]
  decide

/-! ### C10 — finish with no fetched data -/

/-- C10: `handleFinishQuiz` on a state with no quiz data only clears the
timer flag: no results are computed, nothing is submitted, the results
view is not shown, and every other field is unchanged. -/
theorem handleFinishQuiz_noData (s : QuizState) (h : s.quizData = none) :
    handleFinishQuiz s = ({ s with timerActive := false }, []) := by
  simp [handleFinishQuiz, h]

/-- C10 (witness). -/
theorem handleFinishQuiz_noData_witness :
    handleFinishQuiz baseState = ({ baseState with timerActive := false }, []) :=
  handleFinishQuiz_noData baseState rfl

/-! ### C2 — reset has no staleness guard; reset-then-start is fresh -/

/-- An empty provider response. -/
def qdEmpty : QuizResponse :=
  { questions := []
    totalQuestions := 0
    quizType := "meaning" }

/-- C2 (counterexample): the continuation of a `startQuiz` fetch issued
before `resetQuiz` still runs when the response arrives after the reset:
the late-arriving non-empty question list puts the discarded session back
`InProgress` (there is no generation marker or cancelled flag). -/
theorem reset_late_fetch_resurrects :
    (resetQuiz inProgress5).quizStarted = false ∧
    ((startQuiz (resetQuiz inProgress5) (FetchOutcome.success qd5)).1).quizStarted
      = true ∧
    ((startQuiz (resetQuiz inProgress5) (FetchOutcome.success qd5)).1).timerActive
      = true := by
  decide

/-- C2 (amended): `resetQuiz` clears the session, and a `startQuiz` run
after it yields a session with no residual answers, results or questions
from the prior attempt; however a fetch that was in flight at reset time
is not ignored — its completion still runs the start continuation (see
the counterexample). -/
theorem reset_then_start_fresh (s : QuizState) (qd : QuizResponse)
    (h : 0 < qd.questions.length) :
    (resetQuiz s).quizStarted = false ∧
    (resetQuiz s).selectedAnswers = [] ∧
    (resetQuiz s).quizResults = [] ∧
    (resetQuiz s).timerActive = false ∧
    (startQuiz (resetQuiz s) (FetchOutcome.success qd)).1 =
      { s with
          quizData := some qd
          quizStarted := true
          currentQuestionIndex := 0
          selectedAnswers := []
          showResults := false
          timeLeft := qd.questions.length * 30
          timerActive := true
          quizResults := [] } := by
  refine ⟨rfl, rfl, rfl, rfl, ?_⟩
  rw [startQuiz_success_eq (resetQuiz s) qd h]
  rfl

/-- C2 (witness for the amended theorem). -/
theorem reset_then_start_fresh_witness :
    ((startQuiz (resetQuiz inProgress5) (FetchOutcome.success qd5)).1).selectedAnswers
      = [] ∧
    ((startQuiz (resetQuiz inProgress5) (FetchOutcome.success qd5)).1).quizResults
      = [] := by
  rw [(reset_then_start_fresh inProgress5 qd5 (by decide)).2.2.2.2]
  decide

/-! ### C8 — empty or failed fetch leaves the configuration intact -/

/-- C8: when the provider returns an empty list the state only gains the
cached response — the session does not start, the configuration hooks are
untouched and the fixed no-questions message is toasted; when the fetch
throws, the state is fully unchanged and the server message (or the
default) is toasted; the no-questions message is never produced by the
failure path unless the server message is literally that string. -/
theorem startQuiz_failure_spec (s : QuizState) (hs : s.quizStarted = false) :
    (∀ qd : QuizResponse, qd.questions.length = 0 →
      (startQuiz s (FetchOutcome.success qd)).1 = { s with quizData := some qd } ∧
      ((startQuiz s (FetchOutcome.success qd)).1).quizStarted = false ∧
      ((startQuiz s (FetchOutcome.success qd)).1).quizType = s.quizType ∧
      ((startQuiz s (FetchOutcome.success qd)).1).questionCount = s.questionCount ∧
      ((startQuiz s (FetchOutcome.success qd)).1).statusFilter = s.statusFilter ∧
      (startQuiz s (FetchOutcome.success qd)).2 =
        [Effect.toastError ("No questions available for the selected criteria")]) ∧
    (∀ msg : Option String,
      (startQuiz s (FetchOutcome.failure msg)).1 = s ∧
      (startQuiz s (FetchOutcome.failure msg)).2 =
        [Effect.toastError (msg.getD ("Failed to start quiz"))]) ∧
    (∀ msg : Option String,
      msg ≠ some ("No questions available for the selected criteria") →
      (startQuiz s (FetchOutcome.failure msg)).2 ≠
        [Effect.toastError ("No questions available for the selected criteria")]) := by
  refine ⟨?_, ?_, ?_⟩
  · intro qd h
    simp [startQuiz, h, hs]
  · intro msg
    simp [startQuiz]
  · intro msg hmsg
    cases msg with
    | none => simp [startQuiz]
    | some m =>
      simp only [Option.getD, startQuiz]
      intro hcontra
      apply hmsg
      simp only [List.cons.injEq, Effect.toastError.injEq] at hcontra
      exact congrArg some hcontra.1

/-- C8 (witness). -/
theorem startQuiz_failure_witness :
    (startQuiz baseState (FetchOutcome.success qdEmpty)).2 =
      [Effect.toastError ("No questions available for the selected criteria")] ∧
    (startQuiz baseState (FetchOutcome.failure none)).2 =
      [Effect.toastError ("Failed to start quiz")] ∧
    (startQuiz baseState (FetchOutcome.failure none)).2 ≠
      [Effect.toastError ("No questions available for the selected criteria")] := by
  have h := startQuiz_failure_spec baseState rfl
  exact ⟨(h.1 qdEmpty rfl).2.2.2.2.2, (h.2.1 none).2, h.2.2 none (by decide)⟩

/-! ### C3 — shape of the computed QuizResult -/

/-- A degenerate question whose correct answer coincides with the empty
"no answer" marker. -/
def qMarker : QuizQuestion :=
  { wordId := "w1"
    word := "apple"
    question := "pick"
    options := ["", "b"]
    correctAnswer := ""
    type := QType.meaning }

/-- A started session over the single question `qMarker`, unanswered. -/
def sMarker : QuizState :=
  { baseState with
      quizStarted := true
      timeLeft := 30
      timerActive := true
      quizData := some
        { questions := [qMarker]
          totalQuestions := 1
          quizType := "meaning" } }

/-- C3 (counterexample): in a session whose only question is unanswered
and has the empty string as `correctAnswer`, the finish-time entry has
`selectedAnswer == correctAnswer` (both the empty marker) yet
`isCorrect = false` — so `isCorrect` does not always equal
`selectedAnswer === correctAnswer`. -/
theorem quizResult_marker_collision :
    ((handleFinishQuiz sMarker).1).quizResults.map
        (fun r => (r.selectedAnswer == r.correctAnswer, r.correct))
      = [(true, false)] := by
  decide

/-- C3 (amended): the QuizResult has one entry per question in the
original order; an unanswered entry carries the empty marker and
`isCorrect = false`; an answered entry carries the recorded answer and
`isCorrect = (selectedAnswer == correctAnswer)`.  (For an unanswered
entry that equation can fail, exactly when `correctAnswer` is itself the
empty marker — see the counterexample.) -/
theorem quizResult_shape (s : QuizState) (qd : QuizResponse)
    (h : s.quizData = some qd) :
    ((handleFinishQuiz s).1).quizResults.length = qd.questions.length ∧
    ((handleFinishQuiz s).1).quizResults.map (fun r => r.wordId)
      = qd.questions.map (fun q => q.wordId) ∧
    (∀ r ∈ ((handleFinishQuiz s).1).quizResults,
       lookupAnswer s.selectedAnswers r.wordId = none →
         r.selectedAnswer = "" ∧ r.correct = false) ∧
    (∀ r ∈ ((handleFinishQuiz s).1).quizResults,
       ∀ a : String, lookupAnswer s.selectedAnswers r.wordId = some a →
         r.selectedAnswer = a ∧
         r.correct = (r.selectedAnswer == r.correctAnswer)) := by
  have hres : ((handleFinishQuiz s).1).quizResults
      = qd.questions.map (resultOf s.selectedAnswers) := by
    simp [handleFinishQuiz, h]
  refine ⟨?_, ?_, ?_, ?_⟩
  · rw [hres]
    simp
  · rw [hres]
    simp [resultOf]
  · rw [hres]
    intro r hr hnone
    obtain ⟨q, hq, rfl⟩ := List.mem_map.1 hr
    simp only [resultOf] at hnone ⊢
    simp [hnone]
  · rw [hres]
    intro r hr a ha
    obtain ⟨q, hq, rfl⟩ := List.mem_map.1 hr
    simp only [resultOf] at ha ⊢
    simp [ha]

/-- C3 (witness): five questions, three answered: five entries, two of
them unanswered-and-incorrect. -/
theorem quizResult_shape_witness :
    ((handleFinishQuiz inProgress5).1).quizResults.length = 5 ∧
    (((handleFinishQuiz inProgress5).1).quizResults.filter
        (fun r => r.selectedAnswer == "" && !r.correct)).length = 2 :=
  ⟨(quizResult_shape inProgress5 qd5 rfl).1, by decide⟩

/-! ### C5 — nextQuestion advances or finishes, ignoring answers -/

/-- C5: while a question list of length `n` is present and the index is
in range, `handleNextQuestion` at the last index is exactly
`handleFinishQuiz`, below it it only increments the index; and the
transition taken is independent of the recorded answers. -/
theorem handleNextQuestion_spec (s : QuizState) (qd : QuizResponse)
    (h : s.quizData = some qd)
    (hi : s.currentQuestionIndex < qd.questions.length) :
    (s.currentQuestionIndex = qd.questions.length - 1 →
       handleNextQuestion s = handleFinishQuiz s) ∧
    (s.currentQuestionIndex < qd.questions.length - 1 →
       handleNextQuestion s =
         ({ s with currentQuestionIndex := s.currentQuestionIndex + 1 }, [])) ∧
    (∀ m : List (String × String),
       ((handleNextQuestion { s with selectedAnswers := m }).1).currentQuestionIndex
         = ((handleNextQuestion s).1).currentQuestionIndex ∧
       ((handleNextQuestion { s with selectedAnswers := m }).1).showResults
         = ((handleNextQuestion s).1).showResults) := by
  have hnum : numQuestions s = qd.questions.length := by
    simp [numQuestions, h]
  have hnum2 : ∀ m, numQuestions { s with selectedAnswers := m }
      = qd.questions.length := by
    intro m
    simp [numQuestions, h]
  refine ⟨?_, ?_, ?_⟩
  · intro he
    unfold handleNextQuestion
    rw [hnum, he, if_neg (by omega)]
  · intro hlt
    unfold handleNextQuestion
    rw [hnum, if_pos hlt]
  · intro m
    unfold handleNextQuestion
    rw [hnum, hnum2 m]
    by_cases hc : s.currentQuestionIndex < qd.questions.length - 1
    · rw [if_pos hc, if_pos hc]
      exact ⟨rfl, rfl⟩
    · rw [if_neg hc, if_neg hc]
      constructor <;> simp [handleFinishQuiz, h]

/-- C5 (witness): in `inProgress5` (index 0 of 5) the next action
increments the index; at index 4 (the last) it is the finish action. -/
theorem handleNextQuestion_witness :
    handleNextQuestion inProgress5
      = ({ inProgress5 with currentQuestionIndex := 1 }, []) ∧
    handleNextQuestion { inProgress5 with currentQuestionIndex := 4 }
      = handleFinishQuiz { inProgress5 with currentQuestionIndex := 4 } :=
  ⟨(handleNextQuestion_spec inProgress5 qd5 rfl (by decide)).2.1 (by decide),
   (handleNextQuestion_spec { inProgress5 with currentQuestionIndex := 4 } qd5
      rfl (by decide)).1 (by decide)⟩

/-! ### C6 — selectAnswer after Finished -/

/-- The finished session obtained from `inProgress5`: results computed
and shown (`w1`, `w2` correct; `w3` wrong; `w4`, `w5` unanswered). -/
def finished5 : QuizState :=
  (handleFinishQuiz inProgress5).1

/-- C6 (counterexample): invoking `handleAnswerSelect` on a finished
session (`showResults = true`) is neither a no-op nor rejected — it
records a fresh answer into the answers map. -/
theorem selectAnswer_after_finish_records :
    finished5.showResults = true ∧
    lookupAnswer finished5.selectedAnswers ("w4") = none ∧
    lookupAnswer ((handleAnswerSelect finished5 ("w4") ("a4")).1).selectedAnswers
        ("w4") = some ("a4") ∧
    ((handleAnswerSelect finished5 ("w4") ("a4")).1).selectedAnswers
      ≠ finished5.selectedAnswers := by
  decide

/-- C6 (amended): `handleAnswerSelect` in any state — in particular after
the session has finished — still writes the answer into the answers map,
but it performs no external effect and leaves the computed results, the
results display, and every other session field unchanged, so the
finished session state is not otherwise corrupted. -/
theorem selectAnswer_after_finish_no_corruption (s : QuizState)
    (q a : String) :
    (handleAnswerSelect s q a).2 = [] ∧
    ((handleAnswerSelect s q a).1).quizResults = s.quizResults ∧
    ((handleAnswerSelect s q a).1).showResults = s.showResults ∧
    ((handleAnswerSelect s q a).1).quizStarted = s.quizStarted ∧
    ((handleAnswerSelect s q a).1).currentQuestionIndex
      = s.currentQuestionIndex ∧
    ((handleAnswerSelect s q a).1).timerActive = s.timerActive ∧
    ((handleAnswerSelect s q a).1).timeLeft = s.timeLeft ∧
    ((handleAnswerSelect s q a).1).quizData = s.quizData ∧
    ((handleAnswerSelect s q a).1).selectedAnswers
      = (q, a) :: s.selectedAnswers :=
  ⟨rfl, rfl, rfl, rfl, rfl, rfl, rfl, rfl, rfl⟩

/-! ### C9 — answer overwrite, navigation, latest answer wins -/

/-- Finishing never changes the answers map. -/
theorem handleFinishQuiz_selectedAnswers (s : QuizState) :
    ((handleFinishQuiz s).1).selectedAnswers = s.selectedAnswers := by
  cases h : s.quizData <;> simp [handleFinishQuiz, h]

/-- C9: selecting an answer makes it the recorded answer for that word
and only that word, leaves the index and timer alone; navigation leaves
the answers map alone; and after a later finish every result entry for
that word reflects the latest selected answer. -/
theorem selectAnswer_overwrite_spec (s : QuizState) (q a : String) :
    lookupAnswer ((handleAnswerSelect s q a).1).selectedAnswers q
      = some a ∧
    (∀ q2 : String,
       lookupAnswer ((handleAnswerSelect s q a).1).selectedAnswers q2
         = if q2 = q then some a else lookupAnswer s.selectedAnswers q2) ∧
    ((handleAnswerSelect s q a).1).currentQuestionIndex
      = s.currentQuestionIndex ∧
    ((handleAnswerSelect s q a).1).timeLeft = s.timeLeft ∧
    ((handleAnswerSelect s q a).1).timerActive = s.timerActive ∧
    ((handleNextQuestion s).1).selectedAnswers = s.selectedAnswers ∧
    ((handlePreviousQuestion s).1).selectedAnswers = s.selectedAnswers ∧
    (∀ qd : QuizResponse, s.quizData = some qd →
       (((handleFinishQuiz ((handleAnswerSelect s q a).1)).1).quizResults.filter
           (fun r => r.wordId == q)).all
         (fun r => r.selectedAnswer == a
            && r.correct == (a == r.correctAnswer)) = true) := by
  refine ⟨?_, ?_, rfl, rfl, rfl, ?_, ?_, ?_⟩
  · simp [handleAnswerSelect, lookupAnswer, List.lookup]
  · intro q2
    by_cases hq : q2 = q
    · subst hq
      simp [handleAnswerSelect, lookupAnswer, List.lookup]
    · have hb : (q2 == q) = false := by
        simp [hq]
      simp [handleAnswerSelect, lookupAnswer, List.lookup, hb, hq]
  · by_cases hc : s.currentQuestionIndex < numQuestions s - 1
    · simp [handleNextQuestion, hc]
    · simp [handleNextQuestion, hc, handleFinishQuiz_selectedAnswers]
  · by_cases hc : s.currentQuestionIndex > 0 <;>
      simp [handlePreviousQuestion, hc]
  · intro qd hqd
    have hqd2 : ((handleAnswerSelect s q a).1).quizData = some qd := hqd
    rw [List.all_eq_true]
    intro r hr
    rw [List.mem_filter] at hr
    obtain ⟨hmem, hpred⟩ := hr
    simp only [handleFinishQuiz, hqd2] at hmem
    obtain ⟨qq, hq, rfl⟩ := List.mem_map.1 hmem
    simp only [resultOf, beq_iff_eq] at hpred
    simp [resultOf, handleAnswerSelect, lookupAnswer, List.lookup, hpred]

/-- C9 (witness): question `w1` was answered correctly earlier in
`inProgress5`; selecting the wrong option `x` for it and finishing gives
a result entry for `w1` with the latest answer and `isCorrect = false`. -/
theorem selectAnswer_overwrite_witness :
    ((((handleFinishQuiz
            ((handleAnswerSelect inProgress5 ("w1") ("x")).1)).1).quizResults).filter
        (fun r => r.wordId == ("w1"))).all
      (fun r => r.selectedAnswer == ("x")
         && r.correct == (("x") == r.correctAnswer)) = true :=
  (selectAnswer_overwrite_spec inProgress5 ("w1") ("x")).2.2.2.2.2.2.2 qd5 rfl

/-! ### C4 — marking incorrect words for review -/

/-- C4 (counterexample): with three incorrect entries, a run where the
PUT for `w3` succeeds and those for `w4` and `w5` fail produces exactly
the same effects as a run where every PUT fails; the aggregate report is
the fixed error toast, which neither indicates partial success nor lists
the failing words. -/
theorem markWordsForReview_partial_report :
    markWordsForReview finished5 (fun w => w == ("w3"))
      = markWordsForReview finished5 (fun _ => false) ∧
    Effect.toastError ("Failed to mark words for review")
      ∈ markWordsForReview finished5 (fun w => w == ("w3")) := by
  decide

/-- `putRequests` of a request block followed by toast or invalidation
effects collects exactly the requests. -/
theorem putRequests_requests_append (l : List String) (tail : List Effect)
    (htail : putRequests tail = []) :
    putRequests ((l.map (fun w => Effect.putStatus w ("reviewing"))) ++ tail)
      = l.map (fun w => (w, ("reviewing" : String))) := by
  induction l with
  | nil => simpa [putRequests] using htail
  | cons x xs ih =>
    simp only [putRequests, List.map_cons, List.cons_append,
      List.filterMap_cons] at ih ⊢
    exact congrArg _ ih

/-- C4 (amended): one PUT request per incorrect entry is issued in every
run (all are attempted regardless of individual outcomes); with no
incorrect entries the action is a request-free success toast; when any
PUT fails the effects are the full request block followed by the fixed
generic error toast (no partial-success indication, no failing-word
list). -/
theorem markWordsForReview_spec (s : QuizState) (succeeds : String → Bool) :
    putRequests (markWordsForReview s succeeds)
      = ((s.quizResults.filter (fun r => !r.correct)).map (fun r => r.wordId)).map
          (fun w => (w, ("reviewing" : String))) ∧
    ((s.quizResults.filter (fun r => !r.correct)).isEmpty = true →
       markWordsForReview s succeeds
         = [Effect.toastSuccess ("No words to mark for review!")]) ∧
    (((s.quizResults.filter (fun r => !r.correct)).map (fun r => r.wordId)).all
        succeeds = false →
       markWordsForReview s succeeds
         = ((s.quizResults.filter (fun r => !r.correct)).map (fun r => r.wordId)).map
             (fun w => Effect.putStatus w ("reviewing"))
           ++ [Effect.toastError ("Failed to mark words for review")]) := by
  refine ⟨?_, ?_, ?_⟩
  · by_cases he : ((s.quizResults.filter (fun r => !r.correct)).map
        (fun r => r.wordId)).isEmpty = true
    · have hnil : (s.quizResults.filter (fun r => !r.correct)).map
          (fun r => r.wordId) = [] := by
        rwa [List.isEmpty_iff] at he
      simp [markWordsForReview, he, hnil, putRequests]
    · by_cases ha : ((s.quizResults.filter (fun r => !r.correct)).map
          (fun r => r.wordId)).all succeeds = true
      · simp only [markWordsForReview, he, ha, if_true, if_false,
          Bool.false_eq_true]
        rw [putRequests_requests_append _ _ (by rfl)]
      · simp only [markWordsForReview, he, ha, if_true, if_false,
          Bool.false_eq_true]
        rw [putRequests_requests_append _ _ (by rfl)]
  · intro hemp
    have hnil : s.quizResults.filter (fun r => !r.correct) = [] := by
      rwa [List.isEmpty_iff] at hemp
    simp [markWordsForReview, hnil]
  · intro hall
    have hne : ((s.quizResults.filter (fun r => !r.correct)).map
        (fun r => r.wordId)).isEmpty = false := by
      cases hl : (s.quizResults.filter (fun r => !r.correct)).map
          (fun r => r.wordId) with
      | nil => rw [hl] at hall; simp at hall
      | cons x xs => simp
    simp [markWordsForReview, hne, hall]

/-- C4 (witness for the amended theorem): the partial-failure run on
`finished5` issues all three PUTs and ends with the generic error
toast. -/
theorem markWordsForReview_spec_witness :
    markWordsForReview finished5 (fun w => w == ("w3"))
      = [Effect.putStatus ("w3") ("reviewing"),
         Effect.putStatus ("w4") ("reviewing"),
         Effect.putStatus ("w5") ("reviewing"),
         Effect.toastError ("Failed to mark words for review")] := by
  rw [(markWordsForReview_spec finished5 (fun w => w == ("w3"))).2.2 (by decide)]
  decide

end Dictovo
